import Mathlib

/-
Shallow embedding of `src/strategy/sushi-polygon-ema.py`: an EMA-crossover
trading strategy for a single pair.  The decision core `decide_trades` is
modelled as a pure function of the cycle timestamp, the close-price window,
the available cash and whether a position is currently open; it returns the
list of trade intents together with the indicator points sent to the
visualisation sink.

Numerics: Python floats become exact rationals.  The pandas_ta `ema` returns
`None` when the series is shorter than the window; otherwise it returns a
series of the same length whose first `L-1` entries are NaN.  NaN is modelled
as `Option.none` inside the series, and float comparisons involving NaN are
false, as in Python (`optLt`, `optGt`).
-/

namespace SushiPolygonEma

/-- Source constant `POSITION_SIZE = 0.70`: fraction of cash used per entry. -/
def POSITION_SIZE : ℚ := 7 / 10

/-- Source constant `SLOW_EMA_CANDLE_COUNT = 10`. -/
def SLOW_EMA_CANDLE_COUNT : ℕ := 10

/-- Source constant `FAST_EMA_CANDLE_COUNT = 3`. -/
def FAST_EMA_CANDLE_COUNT : ℕ := 3

/-- Source constant `STOP_LOSS_PCT = 0.993`. -/
def STOP_LOSS_PCT : ℚ := 993 / 1000

/-- Source constant `START_AT = datetime.datetime(2022, 1, 1)`, modelled as its
Unix epoch second count. -/
def START_AT : ℤ := 1640995200

/-- Trade intents produced by the strategy core: open a 1x long with a size and
an attached stop-loss percentage, or close the whole open position. -/
inductive TradeIntent
  | openLong (size stop_loss_pct : ℚ)
  | closeAll
  deriving DecidableEq

/-- Source `PlotKind.technical_indicator_on_price`, the only kind used. -/
inductive PlotKind
  | technical_indicator_on_price
  deriving DecidableEq

/-- One call to `state.visualisation.plot_indicator`. -/
structure PlotPoint where
  timestamp : ℤ
  name : String
  kind : PlotKind
  value : Option ℚ
  colour : String
  deriving DecidableEq

/-- Negative positional indexing: `negIdx xs k` models `xs.iloc[-k]`, which is
defined exactly when `1 ≤ k ≤ xs.length`. -/
def negIdx (xs : List α) (k : ℕ) : Option α :=
  if 1 ≤ k ∧ k ≤ xs.length then xs.get? (xs.length - k) else none

/-- Float `<` where `none` stands for NaN: any comparison with NaN is false. -/
def optLt : Option ℚ → Option ℚ → Bool
  | some a, some b => decide (a < b)
  | _, _ => false

/-- Float `>` where `none` stands for NaN: any comparison with NaN is false. -/
def optGt : Option ℚ → Option ℚ → Bool
  | some a, some b => decide (a > b)
  | _, _ => false

/-- EMA smoothing factor `alpha = 2 / (L + 1)` (pandas `ewm(span=L)`). -/
def emaAlpha (L : ℕ) : ℚ := 2 / (L + 1)

/-- Defined trailing EMA values at indices `L-1 .. N-1`: seeded at index `L-1`
with the simple average of the first `L` closes, then the standard recursion
`e[i] = alpha * c[i] + (1 - alpha) * e[i-1]` (pandas_ta `ema` with its default
SMA seeding and `adjust=False`). -/
def emaDefined (closes : List ℚ) (L : ℕ) : List ℚ :=
  (closes.drop L).scanl (fun prev c => emaAlpha L * c + (1 - emaAlpha L) * prev)
    ((closes.take L).sum / (L : ℚ))

/-- Model of pandas_ta `ema(close, length=L)`: `none` when the input has fewer
than `L` samples (`verify_series`), otherwise a series of the input's length
whose first `L-1` entries are NaN. -/
def ema (closes : List ℚ) (L : ℕ) : Option (List (Option ℚ)) :=
  if closes.length < L then none
  else some (List.replicate (L - 1) none ++ (emaDefined closes L).map some)

/-- Source signal `slow_ema_crossover`:
`close_prices.iloc[-3] < slow_ema_series.iloc[-2] and price_latest > slow_ema_latest`. -/
def slow_ema_crossover_flag (closes : List ℚ) (slowS : List (Option ℚ)) : Bool :=
  optLt (negIdx closes 3) ((negIdx slowS 2).join) &&
    optGt (negIdx closes 1) ((negIdx slowS 1).join)

/-- Source signal `slow_ema_crossunder`:
`close_prices.iloc[-2] > slow_ema_series.iloc[-2] and price_latest < slow_ema_latest`. -/
def slow_ema_crossunder_flag (closes : List ℚ) (slowS : List (Option ℚ)) : Bool :=
  optGt (negIdx closes 2) ((negIdx slowS 2).join) &&
    optLt (negIdx closes 1) ((negIdx slowS 1).join)

/-- Source signal `fast_ema_crossunder`:
`close_prices.iloc[-2] > fast_ema_series.iloc[-2] and price_latest < fast_ema_latest`. -/
def fast_ema_crossunder_flag (closes : List ℚ) (fastS : List (Option ℚ)) : Bool :=
  optGt (negIdx closes 2) ((negIdx fastS 2).join) &&
    optLt (negIdx closes 1) ((negIdx fastS 1).join)

/-- Modelled from the spec: `PositionManager.open_1x_long` lives in the external
`tradeexecutor` library, not in this repository.  Per the external-interface
contract it opens the single long position, yielding one OPEN_LONG trade record
carrying the size and the stop-loss percentage attached at entry. -/
def open_1x_long (buy_amount stop_loss_pct : ℚ) : List TradeIntent :=
  [TradeIntent.openLong buy_amount stop_loss_pct]

/-- Modelled from the spec: `PositionManager.close_all` lives in the external
`tradeexecutor` library, not in this repository.  Per the external-interface
contract it must return exactly one trade record for a single-position
strategy (the source asserts `len(new_trades) == 1` on this path). -/
def close_all : List TradeIntent := [TradeIntent.closeAll]

/-- Trade-decision branch of `decide_trades` (source lines 120-151), reached
once both EMA series are defined and long enough: flat state opens on a slow
crossunder or on the bootstrap rule at the configured start timestamp; long
state closes on a slow crossover or on a fast crossunder while the fast EMA
is still above the slow EMA. -/
def decide_core (timestamp : ℤ) (closes : List ℚ) (cash : ℚ) (is_any_open : Bool)
    (slowS fastS : List (Option ℚ)) : List TradeIntent :=
  if !is_any_open then
    if slow_ema_crossunder_flag closes slowS ||
        (optLt (negIdx closes 1) ((negIdx slowS 1).join) &&
          decide (timestamp = START_AT)) then
      open_1x_long (cash * POSITION_SIZE) STOP_LOSS_PCT
    else []
  else
    if slow_ema_crossover_flag closes slowS ||
        (fast_ema_crossunder_flag closes fastS &&
          optGt ((negIdx fastS 1).join) ((negIdx slowS 1).join)) then
      close_all
    else []

/-- Model of `decide_trades` (source lines 70-172).  Inputs: the cycle
timestamp, the close prices of the fetched candle window, the portfolio's
current cash and `position_manager.is_any_open()`.  Output: the returned trade
list and the indicator points sent to the visualisation sink. -/
def decide_trades (timestamp : ℤ) (closes : List ℚ) (cash : ℚ)
    (is_any_open : Bool) : List TradeIntent × List PlotPoint :=
  match ema closes SLOW_EMA_CANDLE_COUNT, ema closes FAST_EMA_CANDLE_COUNT with
  | none, _ => ([], [])
  | some _, none => ([], [])
  | some slowS, some fastS =>
    if slowS.length < 2 ∨ fastS.length < 2 then ([], [])
    else
      (decide_core timestamp closes cash is_any_open slowS fastS,
       [⟨timestamp, "Slow EMA", PlotKind.technical_indicator_on_price,
          (negIdx slowS 1).join, "green"⟩,
        ⟨timestamp, "Fast EMA", PlotKind.technical_indicator_on_price,
          (negIdx fastS 1).join, "red"⟩])

/-! Helper lemmas. -/

lemma ema_none_iff (closes : List ℚ) (L : ℕ) :
    ema closes L = none ↔ closes.length < L := by
  unfold ema
  split <;> simp_all

lemma ema_some_length {closes : List ℚ} {L : ℕ} {s : List (Option ℚ)}
    (h : ema closes L = some s) (hL : 1 ≤ L) :
    s.length = closes.length ∧ L ≤ closes.length := by
  unfold ema at h
  split at h
  · exact absurd h (by simp)
  · next hlen =>
    push_neg at hlen
    refine ⟨?_, hlen⟩
    injection h with h
    subst h
    simp only [List.length_append, List.length_replicate, List.length_map,
      emaDefined, List.length_scanl, List.length_drop]
    omega

lemma negIdx_isSome {α : Type} {xs : List α} {k : ℕ} (h1 : 1 ≤ k)
    (h2 : k ≤ xs.length) : (negIdx xs k).isSome = true := by
  unfold negIdx
  rw [if_pos ⟨h1, h2⟩, List.get?_eq_get (by omega)]
  rfl

lemma optLt_self (x : Option ℚ) : optLt x x = false := by
  cases x <;> simp [optLt]

lemma optGt_self (x : Option ℚ) : optGt x x = false := by
  cases x <;> simp [optGt]

lemma decide_trades_none {closes : List ℚ}
    (h : ema closes SLOW_EMA_CANDLE_COUNT = none ∨
      ema closes FAST_EMA_CANDLE_COUNT = none)
    (ts : ℤ) (cash : ℚ) (o : Bool) :
    decide_trades ts closes cash o = ([], []) := by
  rcases h with h | h
  · simp [decide_trades, h]
  · cases h1 : ema closes SLOW_EMA_CANDLE_COUNT <;> simp [decide_trades, h, h1]

lemma decide_trades_some {closes : List ℚ} {slowS fastS : List (Option ℚ)}
    (h1 : ema closes SLOW_EMA_CANDLE_COUNT = some slowS)
    (h2 : ema closes FAST_EMA_CANDLE_COUNT = some fastS)
    (ts : ℤ) (cash : ℚ) (o : Bool) :
    decide_trades ts closes cash o =
      (decide_core ts closes cash o slowS fastS,
       [⟨ts, "Slow EMA", PlotKind.technical_indicator_on_price,
          (negIdx slowS 1).join, "green"⟩,
        ⟨ts, "Fast EMA", PlotKind.technical_indicator_on_price,
          (negIdx fastS 1).join, "red"⟩]) := by
  have hs := ema_some_length h1 (by norm_num [SLOW_EMA_CANDLE_COUNT])
  have hf := ema_some_length h2 (by norm_num [FAST_EMA_CANDLE_COUNT])
  rw [SLOW_EMA_CANDLE_COUNT] at hs
  rw [FAST_EMA_CANDLE_COUNT] at hf
  have hguard : ¬ (slowS.length < 2 ∨ fastS.length < 2) := by omega
  simp [decide_trades, h1, h2, hguard]

lemma decide_core_flat (ts : ℤ) (closes : List ℚ) (cash : ℚ)
    (slowS fastS : List (Option ℚ)) :
    decide_core ts closes cash false slowS fastS =
      (if slow_ema_crossunder_flag closes slowS ||
          (optLt (negIdx closes 1) ((negIdx slowS 1).join) &&
            decide (ts = START_AT)) then
        [TradeIntent.openLong (cash * POSITION_SIZE) STOP_LOSS_PCT]
      else []) := by
  simp [decide_core, open_1x_long]

lemma decide_core_long (ts : ℤ) (closes : List ℚ) (cash : ℚ)
    (slowS fastS : List (Option ℚ)) :
    decide_core ts closes cash true slowS fastS =
      (if slow_ema_crossover_flag closes slowS ||
          (fast_ema_crossunder_flag closes fastS &&
            optGt ((negIdx fastS 1).join) ((negIdx slowS 1).join)) then
        [TradeIntent.closeAll]
      else []) := by
  simp [decide_core, close_all]

/-! Claim theorems. -/

/-- C1: for every invocation of the decision function (any candle window, cash
amount, and position state), the returned trade list has length 0 or 1: a
cycle never emits both an open and a close, and never more than one trade
intent in total. -/
theorem C1_trade_list_length_le_one (ts : ℤ) (closes : List ℚ) (cash : ℚ)
    (o : Bool) :
    (decide_trades ts closes cash o).1.length = 0 ∨
      (decide_trades ts closes cash o).1.length = 1 := by
  cases h1 : ema closes SLOW_EMA_CANDLE_COUNT with
  | none => rw [decide_trades_none (Or.inl h1)]; simp
  | some slowS =>
    cases h2 : ema closes FAST_EMA_CANDLE_COUNT with
    | none => rw [decide_trades_none (Or.inr h2)]; simp
    | some fastS =>
      rw [decide_trades_some h1 h2]
      cases o
      · rw [decide_core_flat]
        split <;> simp
      · rw [decide_core_long]
        split <;> simp

/-- C2: for every invocation in which the EMA computation reports undefined
(returns no series) for either the slow or the fast window — in particular
whenever the close-price sequence is shorter than the window length — the
decision function returns an empty trade list, with no open or close
emitted. -/
theorem C2_undefined_ema_no_trades (ts : ℤ) (closes : List ℚ) (cash : ℚ)
    (o : Bool) :
    ((ema closes SLOW_EMA_CANDLE_COUNT = none ∨
        ema closes FAST_EMA_CANDLE_COUNT = none) →
      (decide_trades ts closes cash o).1 = []) ∧
    (closes.length < SLOW_EMA_CANDLE_COUNT ∨
        closes.length < FAST_EMA_CANDLE_COUNT →
      ema closes SLOW_EMA_CANDLE_COUNT = none ∨
        ema closes FAST_EMA_CANDLE_COUNT = none) := by
  constructor
  · intro h
    rw [decide_trades_none h]
  · rintro (h | h)
    · exact Or.inl ((ema_none_iff _ _).2 h)
    · exact Or.inr ((ema_none_iff _ _).2 h)

/-- Witness for C2 at the empty candle window. -/
theorem C2_witness : (decide_trades 0 [] 0 false).1 = [] :=
  (C2_undefined_ema_no_trades 0 [] 0 false).1 (Or.inl (by decide))

/-- C3: for every cycle with sufficient data (the accessed price points and
EMA points all defined), the three signal flags are computed with exactly the
asymmetric index offsets of the source: `slow_crossover` iff the close three
steps back is strictly below the slow EMA two steps back and the latest close
is strictly above the latest slow EMA; `slow_crossunder` iff the close two
steps back is strictly above the slow EMA two steps back and the latest close
is strictly below the latest slow EMA; `fast_crossunder` iff the close two
steps back is strictly above the fast EMA two steps back and the latest close
is strictly below the latest fast EMA. -/
theorem C3_signal_index_offsets (closes : List ℚ)
    (slowS fastS : List (Option ℚ)) (c1 c2 c3 s1 s2 f1 f2 : ℚ)
    (hc1 : negIdx closes 1 = some c1) (hc2 : negIdx closes 2 = some c2)
    (hc3 : negIdx closes 3 = some c3)
    (hs1 : (negIdx slowS 1).join = some s1)
    (hs2 : (negIdx slowS 2).join = some s2)
    (hf1 : (negIdx fastS 1).join = some f1)
    (hf2 : (negIdx fastS 2).join = some f2) :
    (slow_ema_crossover_flag closes slowS = true ↔ c3 < s2 ∧ c1 > s1) ∧
    (slow_ema_crossunder_flag closes slowS = true ↔ c2 > s2 ∧ c1 < s1) ∧
    (fast_ema_crossunder_flag closes fastS = true ↔ c2 > f2 ∧ c1 < f1) := by
  unfold slow_ema_crossover_flag slow_ema_crossunder_flag fast_ema_crossunder_flag
  rw [hc1, hc2, hc3, hs1, hs2, hf1, hf2]
  simp [optLt, optGt]

/-- Witness for C3 at a concrete three-point window and concrete series. -/
theorem C3_witness :
    (slow_ema_crossover_flag [1, 2, 3] [some 4, some 5, some 6] = true ↔
      (1 : ℚ) < 5 ∧ (3 : ℚ) > 6) ∧
    (slow_ema_crossunder_flag [1, 2, 3] [some 4, some 5, some 6] = true ↔
      (2 : ℚ) > 5 ∧ (3 : ℚ) < 6) ∧
    (fast_ema_crossunder_flag [1, 2, 3] [some 7, some 8, some 9] = true ↔
      (2 : ℚ) > 8 ∧ (3 : ℚ) < 9) :=
  C3_signal_index_offsets [1, 2, 3] [some 4, some 5, some 6]
    [some 7, some 8, some 9] 3 2 1 6 5 9 8
    (by decide) (by decide) (by decide) (by decide) (by decide)
    (by decide) (by decide)

/-- C4: for every cycle with sufficient data in which no position is open, an
OPEN_LONG is emitted iff `slow_crossunder` is true, or the cycle timestamp
equals the configured start timestamp and the latest close is strictly below
the latest slow EMA (bootstrap rule); when emitted, its size equals 0.70 times
the available cash and its stop-loss percentage equals 0.993.  In particular a
flat state never reacts to `slow_crossover`: the output is either the single
OPEN_LONG or empty. -/
theorem C4_flat_open_rule (ts : ℤ) (closes : List ℚ) (cash : ℚ)
    (slowS fastS : List (Option ℚ))
    (h1 : ema closes SLOW_EMA_CANDLE_COUNT = some slowS)
    (h2 : ema closes FAST_EMA_CANDLE_COUNT = some fastS) :
    ((decide_trades ts closes cash false).1 =
        [TradeIntent.openLong (cash * POSITION_SIZE) STOP_LOSS_PCT] ↔
      (slow_ema_crossunder_flag closes slowS = true ∨
        (optLt (negIdx closes 1) ((negIdx slowS 1).join) = true ∧
          ts = START_AT))) ∧
    (¬ (slow_ema_crossunder_flag closes slowS = true ∨
        (optLt (negIdx closes 1) ((negIdx slowS 1).join) = true ∧
          ts = START_AT)) →
      (decide_trades ts closes cash false).1 = []) ∧
    POSITION_SIZE = 7 / 10 ∧ STOP_LOSS_PCT = 993 / 1000 := by
  have hD : (decide_trades ts closes cash false).1 =
      (if slow_ema_crossunder_flag closes slowS ||
          (optLt (negIdx closes 1) ((negIdx slowS 1).join) &&
            decide (ts = START_AT)) then
        [TradeIntent.openLong (cash * POSITION_SIZE) STOP_LOSS_PCT]
      else []) := by
    rw [decide_trades_some h1 h2]
    exact decide_core_flat ts closes cash slowS fastS
  by_cases hb : (slow_ema_crossunder_flag closes slowS ||
      (optLt (negIdx closes 1) ((negIdx slowS 1).join) &&
        decide (ts = START_AT))) = true
  · have hcond : slow_ema_crossunder_flag closes slowS = true ∨
        (optLt (negIdx closes 1) ((negIdx slowS 1).join) = true ∧
          ts = START_AT) := by
      simpa [Bool.or_eq_true, Bool.and_eq_true, decide_eq_true_eq] using hb
    rw [hD, if_pos hb]
    exact ⟨⟨fun _ => hcond, fun _ => rfl⟩, fun hn => absurd hcond hn, rfl, rfl⟩
  · have hncond : ¬ (slow_ema_crossunder_flag closes slowS = true ∨
        (optLt (negIdx closes 1) ((negIdx slowS 1).join) = true ∧
          ts = START_AT)) := by
      simpa [Bool.or_eq_true, Bool.and_eq_true, decide_eq_true_eq] using hb
    rw [hD, if_neg hb]
    exact ⟨⟨fun he => absurd he (by simp), fun hc => absurd hc hncond⟩,
      fun _ => rfl, rfl, rfl⟩

/-- Witness for C4, Scenario A: ten closes strictly below the flat slow EMA,
flat state, cycle timestamp equals the configured start: the bootstrap rule
fires and the single OPEN_LONG carries size 0.70 × cash and stop-loss 0.993. -/
theorem C4_witness :
    (decide_trades START_AT [2, 2, 2, 2, 2, 2, 2, 2, 2, 1] 100 false).1 =
      [TradeIntent.openLong (100 * POSITION_SIZE) STOP_LOSS_PCT] :=
  ((C4_flat_open_rule START_AT [2, 2, 2, 2, 2, 2, 2, 2, 2, 1] 100
      [none, none, none, none, none, none, none, none, none, some (19 / 10)]
      [none, none, some 2, some 2, some 2, some 2, some 2, some 2, some 2,
        some (3 / 2)]
      (by norm_num [ema, emaDefined, emaAlpha, SLOW_EMA_CANDLE_COUNT,
        List.scanl, List.replicate])
      (by norm_num [ema, emaDefined, emaAlpha, FAST_EMA_CANDLE_COUNT,
        List.scanl, List.replicate])).1).2
    (Or.inr ⟨by norm_num [optLt, negIdx, List.get?], rfl⟩)

/-- C5: for every cycle with sufficient data in which a position is open, a
CLOSE_ALL is emitted iff `slow_crossover` is true, or `fast_crossunder` is
true and the latest fast EMA value is strictly above the latest slow EMA
value; a close is the single element of the returned list (so exactly one
trade record and no OPEN_LONG in the same cycle), otherwise the list is
empty. -/
theorem C5_long_close_rule (ts : ℤ) (closes : List ℚ) (cash : ℚ)
    (slowS fastS : List (Option ℚ))
    (h1 : ema closes SLOW_EMA_CANDLE_COUNT = some slowS)
    (h2 : ema closes FAST_EMA_CANDLE_COUNT = some fastS) :
    ((decide_trades ts closes cash true).1 = [TradeIntent.closeAll] ↔
      (slow_ema_crossover_flag closes slowS = true ∨
        (fast_ema_crossunder_flag closes fastS = true ∧
          optGt ((negIdx fastS 1).join) ((negIdx slowS 1).join) = true))) ∧
    (¬ (slow_ema_crossover_flag closes slowS = true ∨
        (fast_ema_crossunder_flag closes fastS = true ∧
          optGt ((negIdx fastS 1).join) ((negIdx slowS 1).join) = true)) →
      (decide_trades ts closes cash true).1 = []) := by
  have hD : (decide_trades ts closes cash true).1 =
      (if slow_ema_crossover_flag closes slowS ||
          (fast_ema_crossunder_flag closes fastS &&
            optGt ((negIdx fastS 1).join) ((negIdx slowS 1).join)) then
        [TradeIntent.closeAll]
      else []) := by
    rw [decide_trades_some h1 h2]
    exact decide_core_long ts closes cash slowS fastS
  by_cases hb : (slow_ema_crossover_flag closes slowS ||
      (fast_ema_crossunder_flag closes fastS &&
        optGt ((negIdx fastS 1).join) ((negIdx slowS 1).join))) = true
  · have hcond : slow_ema_crossover_flag closes slowS = true ∨
        (fast_ema_crossunder_flag closes fastS = true ∧
          optGt ((negIdx fastS 1).join) ((negIdx slowS 1).join) = true) := by
      simpa [Bool.or_eq_true, Bool.and_eq_true] using hb
    rw [hD, if_pos hb]
    exact ⟨⟨fun _ => hcond, fun _ => rfl⟩, fun hn => absurd hcond hn⟩
  · have hncond : ¬ (slow_ema_crossover_flag closes slowS = true ∨
        (fast_ema_crossunder_flag closes fastS = true ∧
          optGt ((negIdx fastS 1).join) ((negIdx slowS 1).join) = true)) := by
      simpa [Bool.or_eq_true, Bool.and_eq_true] using hb
    rw [hD, if_neg hb]
    exact ⟨⟨fun he => absurd he (by simp), fun hc => absurd hc hncond⟩,
      fun _ => rfl⟩

/-- Witness for C5: long state, fast crossunder with the fast EMA above the
slow EMA, so the single CLOSE_ALL is emitted. -/
theorem C5_witness :
    (decide_trades 0 [0, 0, 0, 0, 0, 0, 0, 0, 100, 10] 100 true).1 =
      [TradeIntent.closeAll] :=
  ((C5_long_close_rule 0 [0, 0, 0, 0, 0, 0, 0, 0, 100, 10] 100
      [none, none, none, none, none, none, none, none, none, some 11]
      [none, none, some 0, some 0, some 0, some 0, some 0, some 0, some 50,
        some 30]
      (by norm_num [ema, emaDefined, emaAlpha, SLOW_EMA_CANDLE_COUNT,
        List.scanl, List.replicate])
      (by norm_num [ema, emaDefined, emaAlpha, FAST_EMA_CANDLE_COUNT,
        List.scanl, List.replicate])).1).2
    (Or.inr ⟨by norm_num [fast_ema_crossunder_flag, optLt, optGt, negIdx,
        List.get?],
      by norm_num [optGt, negIdx, List.get?]⟩)

/-- C6 counterexample: a concrete cycle with a position open in which
`fast_crossunder` is true, `slow_crossover` is false and the latest fast EMA
(30) is strictly above the latest slow EMA (11) — yet the decision function
emits a CLOSE_ALL, refuting the claim that no close is emitted in this case
(the code closes exactly when the fast EMA is still above the slow EMA). -/
theorem C6_counterexample :
    ema [0, 0, 0, 0, 0, 0, 0, 0, 100, 10] SLOW_EMA_CANDLE_COUNT =
      some [none, none, none, none, none, none, none, none, none, some 11] ∧
    ema [0, 0, 0, 0, 0, 0, 0, 0, 100, 10] FAST_EMA_CANDLE_COUNT =
      some [none, none, some 0, some 0, some 0, some 0, some 0, some 0,
        some 50, some 30] ∧
    fast_ema_crossunder_flag [0, 0, 0, 0, 0, 0, 0, 0, 100, 10]
      [none, none, some 0, some 0, some 0, some 0, some 0, some 0, some 50,
        some 30] = true ∧
    slow_ema_crossover_flag [0, 0, 0, 0, 0, 0, 0, 0, 100, 10]
      [none, none, none, none, none, none, none, none, none, some 11] =
      false ∧
    optGt ((negIdx [none, none, some (0 : ℚ), some 0, some 0, some 0, some 0,
        some 0, some 50, some 30] 1).join)
      ((negIdx [none, none, none, none, none, none, none, none, none,
        some (11 : ℚ)] 1).join) = true ∧
    (decide_trades 0 [0, 0, 0, 0, 0, 0, 0, 0, 100, 10] 100 true).1 =
      [TradeIntent.closeAll] := by
  have h1 : ema [0, 0, 0, 0, 0, 0, 0, 0, 100, 10] SLOW_EMA_CANDLE_COUNT =
      some [none, none, none, none, none, none, none, none, none, some 11] := by
    norm_num [ema, emaDefined, emaAlpha, SLOW_EMA_CANDLE_COUNT, List.scanl,
      List.replicate]
  have h2 : ema [0, 0, 0, 0, 0, 0, 0, 0, 100, 10] FAST_EMA_CANDLE_COUNT =
      some [none, none, some 0, some 0, some 0, some 0, some 0, some 0,
        some 50, some 30] := by
    norm_num [ema, emaDefined, emaAlpha, FAST_EMA_CANDLE_COUNT, List.scanl,
      List.replicate]
  have hfc : fast_ema_crossunder_flag [0, 0, 0, 0, 0, 0, 0, 0, 100, 10]
      [none, none, some 0, some 0, some 0, some 0, some 0, some 0, some 50,
        some 30] = true := by
    norm_num [fast_ema_crossunder_flag, optLt, optGt, negIdx, List.get?]
  have hco : slow_ema_crossover_flag [0, 0, 0, 0, 0, 0, 0, 0, 100, 10]
      [none, none, none, none, none, none, none, none, none, some 11] =
      false := by
    norm_num [slow_ema_crossover_flag, optLt, optGt, negIdx, List.get?]
  have hgt : optGt ((negIdx [none, none, some (0 : ℚ), some 0, some 0, some 0,
        some 0, some 0, some 50, some 30] 1).join)
      ((negIdx [none, none, none, none, none, none, none, none, none,
        some (11 : ℚ)] 1).join) = true := by
    norm_num [optGt, negIdx, List.get?]
  refine ⟨h1, h2, hfc, hco, hgt, ?_⟩
  have hD : (decide_trades 0 [0, 0, 0, 0, 0, 0, 0, 0, 100, 10] 100 true).1 =
      decide_core 0 [0, 0, 0, 0, 0, 0, 0, 0, 100, 10] 100 true
        [none, none, none, none, none, none, none, none, none, some 11]
        [none, none, some 0, some 0, some 0, some 0, some 0, some 0, some 50,
          some 30] := by
    rw [decide_trades_some h1 h2]
  rw [hD, decide_core_long, if_pos (by rw [hco, hfc, hgt]; rfl)]

/-- C6 amended: for every cycle with sufficient data in which a position is
open, `fast_crossunder` is true, `slow_crossover` is false, and the latest
fast EMA value is NOT strictly above the latest slow EMA value (the guarded
case), no close is emitted: the trade list of that cycle is empty. -/
theorem C6_amended_guarded_no_close (ts : ℤ) (closes : List ℚ) (cash : ℚ)
    (slowS fastS : List (Option ℚ))
    (h1 : ema closes SLOW_EMA_CANDLE_COUNT = some slowS)
    (h2 : ema closes FAST_EMA_CANDLE_COUNT = some fastS)
    (hfc : fast_ema_crossunder_flag closes fastS = true)
    (hco : slow_ema_crossover_flag closes slowS = false)
    (hng : optGt ((negIdx fastS 1).join) ((negIdx slowS 1).join) = false) :
    (decide_trades ts closes cash true).1 = [] := by
  have hD : (decide_trades ts closes cash true).1 =
      decide_core ts closes cash true slowS fastS := by
    rw [decide_trades_some h1 h2]
  rw [hD, decide_core_long, if_neg (by rw [hco, hfc, hng]; simp)]

/-- Witness for the amended C6: long state, fast crossunder, no slow
crossover, fast EMA (221/4) below the slow EMA (911/10): no trade emitted. -/
theorem C6_amended_witness :
    (decide_trades 0 [100, 100, 100, 100, 100, 100, 100, 100, 101, 10] 100
      true).1 = [] :=
  C6_amended_guarded_no_close 0
    [100, 100, 100, 100, 100, 100, 100, 100, 101, 10] 100
    [none, none, none, none, none, none, none, none, none, some (911 / 10)]
    [none, none, some 100, some 100, some 100, some 100, some 100, some 100,
      some (201 / 2), some (221 / 4)]
    (by norm_num [ema, emaDefined, emaAlpha, SLOW_EMA_CANDLE_COUNT,
      List.scanl, List.replicate])
    (by norm_num [ema, emaDefined, emaAlpha, FAST_EMA_CANDLE_COUNT,
      List.scanl, List.replicate])
    (by norm_num [fast_ema_crossunder_flag, optLt, optGt, negIdx, List.get?])
    (by norm_num [slow_ema_crossover_flag, optLt, optGt, negIdx, List.get?])
    (by norm_num [optGt, negIdx, List.get?])

/-- C7: if the price series has fewer than 3 points the cycle is handled by the
data-sufficiency guards and returns an empty trade list rather than failing
(with a ten-candle slow window, both EMA series defined together with fewer
than 3 prices cannot occur); and whenever execution proceeds past the guards,
every index access used by the signal computation — price three, two and one
steps back, each EMA two and one steps back — is within bounds. -/
theorem C7_guarded_index_safety (ts : ℤ) (cash : ℚ) (o : Bool)
    (closes : List ℚ) :
    (closes.length < 3 → (decide_trades ts closes cash o).1 = []) ∧
    (∀ slowS fastS, ema closes SLOW_EMA_CANDLE_COUNT = some slowS →
      ema closes FAST_EMA_CANDLE_COUNT = some fastS →
      (negIdx closes 3).isSome = true ∧ (negIdx closes 2).isSome = true ∧
      (negIdx closes 1).isSome = true ∧ (negIdx slowS 2).isSome = true ∧
      (negIdx slowS 1).isSome = true ∧ (negIdx fastS 2).isSome = true ∧
      (negIdx fastS 1).isSome = true) := by
  constructor
  · intro h
    have hnone : ema closes SLOW_EMA_CANDLE_COUNT = none :=
      (ema_none_iff _ _).2 (by rw [SLOW_EMA_CANDLE_COUNT]; omega)
    rw [decide_trades_none (Or.inl hnone)]
  · intro slowS fastS h1 h2
    have hs := ema_some_length h1 (by norm_num [SLOW_EMA_CANDLE_COUNT])
    have hf := ema_some_length h2 (by norm_num [FAST_EMA_CANDLE_COUNT])
    rw [SLOW_EMA_CANDLE_COUNT] at hs
    rw [FAST_EMA_CANDLE_COUNT] at hf
    exact ⟨negIdx_isSome (by omega) (by omega),
      negIdx_isSome (by omega) (by omega),
      negIdx_isSome (by omega) (by omega),
      negIdx_isSome (by omega) (by omega),
      negIdx_isSome (by omega) (by omega),
      negIdx_isSome (by omega) (by omega),
      negIdx_isSome (by omega) (by omega)⟩

/-- Witness for C7: a one-candle window yields no trades, and at a ten-candle
window passing the guards all seven index accesses are defined. -/
theorem C7_witness :
    (decide_trades 0 [1] 0 false).1 = [] ∧
    ((negIdx ([1, 1, 1, 1, 1, 1, 1, 1, 1, 1] : List ℚ) 3).isSome = true ∧
      (negIdx ([1, 1, 1, 1, 1, 1, 1, 1, 1, 1] : List ℚ) 2).isSome = true ∧
      (negIdx ([1, 1, 1, 1, 1, 1, 1, 1, 1, 1] : List ℚ) 1).isSome = true ∧
      (negIdx [none, none, none, none, none, none, none, none, none,
        some (1 : ℚ)] 2).isSome = true ∧
      (negIdx [none, none, none, none, none, none, none, none, none,
        some (1 : ℚ)] 1).isSome = true ∧
      (negIdx [none, none, some (1 : ℚ), some 1, some 1, some 1, some 1,
        some 1, some 1, some 1] 2).isSome = true ∧
      (negIdx [none, none, some (1 : ℚ), some 1, some 1, some 1, some 1,
        some 1, some 1, some 1] 1).isSome = true) :=
  ⟨(C7_guarded_index_safety 0 0 false [1]).1 (by norm_num),
   (C7_guarded_index_safety 0 0 false [1, 1, 1, 1, 1, 1, 1, 1, 1, 1]).2
     [none, none, none, none, none, none, none, none, none, some 1]
     [none, none, some 1, some 1, some 1, some 1, some 1, some 1, some 1,
       some 1]
     (by norm_num [ema, emaDefined, emaAlpha, SLOW_EMA_CANDLE_COUNT,
       List.scanl, List.replicate])
     (by norm_num [ema, emaDefined, emaAlpha, FAST_EMA_CANDLE_COUNT,
       List.scanl, List.replicate])⟩

/-- C8: the decision function is deterministic — two invocations with
identical candle window, cash, position state and timestamp return identical
trade-intent lists and identical visualisation output. -/
theorem C8_deterministic (ts ts' : ℤ) (closes closes' : List ℚ)
    (cash cash' : ℚ) (o o' : Bool)
    (ht : ts = ts') (hc : closes = closes') (hm : cash = cash')
    (ho : o = o') :
    decide_trades ts closes cash o = decide_trades ts' closes' cash' o' := by
  rw [ht, hc, hm, ho]

/-- Witness for C8 at a concrete repeated invocation. -/
theorem C8_witness :
    decide_trades 0 [1] 2 false = decide_trades 0 [1] 2 false :=
  C8_deterministic 0 0 [1] [1] 2 2 false false rfl rfl rfl rfl

/-- C9: for every cycle passing the data-sufficiency guards, the two latest
EMA scalar values are forwarded to the visualisation sink with fixed names
and colours (slow EMA green, fast EMA red), regardless of position state and
of whether a trade intent is produced; for every cycle failing the guards,
nothing is forwarded. -/
theorem C9_visualisation_forwarding (ts : ℤ) (closes : List ℚ) (cash : ℚ)
    (o : Bool) :
    (∀ slowS fastS, ema closes SLOW_EMA_CANDLE_COUNT = some slowS →
      ema closes FAST_EMA_CANDLE_COUNT = some fastS →
      (decide_trades ts closes cash o).2 =
        [⟨ts, "Slow EMA", PlotKind.technical_indicator_on_price,
          (negIdx slowS 1).join, "green"⟩,
         ⟨ts, "Fast EMA", PlotKind.technical_indicator_on_price,
          (negIdx fastS 1).join, "red"⟩]) ∧
    ((ema closes SLOW_EMA_CANDLE_COUNT = none ∨
        ema closes FAST_EMA_CANDLE_COUNT = none) →
      (decide_trades ts closes cash o).2 = []) := by
  constructor
  · intro slowS fastS h1 h2
    rw [decide_trades_some h1 h2]
  · intro h
    rw [decide_trades_none h]

/-- Witness for C9: a guard-passing cycle forwards the two latest EMA values
with their names and colours. -/
theorem C9_witness :
    (decide_trades 0 [1, 1, 1, 1, 1, 1, 1, 1, 1, 1] 5 false).2 =
      [⟨0, "Slow EMA", PlotKind.technical_indicator_on_price, some 1,
        "green"⟩,
       ⟨0, "Fast EMA", PlotKind.technical_indicator_on_price, some 1,
        "red"⟩] := by
  have h := (C9_visualisation_forwarding 0 [1, 1, 1, 1, 1, 1, 1, 1, 1, 1] 5
      false).1
    [none, none, none, none, none, none, none, none, none, some 1]
    [none, none, some 1, some 1, some 1, some 1, some 1, some 1, some 1,
      some 1]
    (by norm_num [ema, emaDefined, emaAlpha, SLOW_EMA_CANDLE_COUNT,
      List.scanl, List.replicate])
    (by norm_num [ema, emaDefined, emaAlpha, FAST_EMA_CANDLE_COUNT,
      List.scanl, List.replicate])
  rw [h]
  norm_num [negIdx, List.get?, Option.join]

/-- C10: all signal and bootstrap comparisons are strict — when the latest
close price exactly equals the latest slow EMA value, `slow_crossover` and
`slow_crossunder` are both false and the bootstrap comparison does not fire,
so a cycle with no open position emits no trade intent. -/
theorem C10_price_equal_ema_no_action (ts : ℤ) (closes : List ℚ) (cash : ℚ)
    (slowS fastS : List (Option ℚ))
    (h1 : ema closes SLOW_EMA_CANDLE_COUNT = some slowS)
    (h2 : ema closes FAST_EMA_CANDLE_COUNT = some fastS)
    (heq : negIdx closes 1 = (negIdx slowS 1).join) :
    slow_ema_crossover_flag closes slowS = false ∧
    slow_ema_crossunder_flag closes slowS = false ∧
    optLt (negIdx closes 1) ((negIdx slowS 1).join) = false ∧
    (decide_trades ts closes cash false).1 = [] := by
  have hlt : optLt (negIdx closes 1) ((negIdx slowS 1).join) = false := by
    rw [← heq]; exact optLt_self _
  have hgt : optGt (negIdx closes 1) ((negIdx slowS 1).join) = false := by
    rw [← heq]; exact optGt_self _
  have hco : slow_ema_crossover_flag closes slowS = false := by
    unfold slow_ema_crossover_flag
    rw [hgt]
    exact Bool.and_false _
  have hcu : slow_ema_crossunder_flag closes slowS = false := by
    unfold slow_ema_crossunder_flag
    rw [hlt]
    exact Bool.and_false _
  refine ⟨hco, hcu, hlt, ?_⟩
  have hD : (decide_trades ts closes cash false).1 =
      decide_core ts closes cash false slowS fastS := by
    rw [decide_trades_some h1 h2]
  rw [hD, decide_core_flat, if_neg (by rw [hcu, hlt]; simp)]

/-- Witness for C10: a constant price series sitting exactly on its slow EMA
emits nothing from the flat state. -/
theorem C10_witness :
    (decide_trades START_AT [1, 1, 1, 1, 1, 1, 1, 1, 1, 1] 100 false).1 =
      [] :=
  (C10_price_equal_ema_no_action START_AT [1, 1, 1, 1, 1, 1, 1, 1, 1, 1] 100
    [none, none, none, none, none, none, none, none, none, some 1]
    [none, none, some 1, some 1, some 1, some 1, some 1, some 1, some 1,
      some 1]
    (by norm_num [ema, emaDefined, emaAlpha, SLOW_EMA_CANDLE_COUNT,
      List.scanl, List.replicate])
    (by norm_num [ema, emaDefined, emaAlpha, FAST_EMA_CANDLE_COUNT,
      List.scanl, List.replicate])
    (by norm_num [negIdx, List.get?, Option.join])).2.2.2

end SushiPolygonEma
